import Mathlib

/-!
Shallow embedding of the PDF-generation scripts of the
Teams-Calling-Scripting repository:

* `src/Modules/pdf_generator.py` — `convert_html_to_pdf_async`,
  `batch_convert_directory_async`, `check_playwright`, `main`;
* `src/generate_pdfs.py` — the wrapper `main`.

Pure path arithmetic (pathlib `stem` / `suffix` / `with_suffix` / `/`)
is embedded as functions on component lists of characters.  The outside
world (filesystem queries, the Playwright rendering collaborator) is an
explicit environment of response functions; each awaited Playwright call
is a stage that either succeeds (emitting an observable event) or raises
(modelling a Python exception at that call site).
-/

namespace PdfGen

/-- A filesystem path, mirroring `pathlib.Path`: `dir` is the list of
leading components, `base` the final component (`Path.name`). -/
structure FsPath where
  dir : List (List Char)
  base : List Char
deriving DecidableEq

/-- Join `d / n` where the left side is used as a directory
(pathlib `Path(d) / n`). -/
def childOf (d : FsPath) (n : List Char) : FsPath :=
  ⟨d.dir ++ [d.base], n⟩

/-- Split a filename at its last dot: `splitLastDot n = some (b, a)`
exactly when `n = b ++ '.' :: a` with `a` dot-free; `none` when `n`
contains no dot.  This mirrors `name.rfind('.')` used by pathlib. -/
def splitLastDot : List Char → Option (List Char × List Char)
  | [] => none
  | c :: cs =>
    match splitLastDot cs with
    | some (b, a) => some (c :: b, a)
    | none => if c = '.' then some ([], cs) else none

/-- Mirror of `PurePath.suffix`: the substring from the last dot, provided that dot
is neither the first nor the last character of the name; `""` otherwise
(exactly CPython's `0 < i < len(name) - 1` condition). -/
def pySuffix (name : List Char) : List Char :=
  match splitLastDot name with
  | some (b, a) => if b ≠ [] ∧ a ≠ [] then '.' :: a else []
  | none => []

/-- Mirror of `PurePath.stem`: the name with `pySuffix` removed. -/
def pyStem (name : List Char) : List Char :=
  match splitLastDot name with
  | some (b, a) => if b ≠ [] ∧ a ≠ [] then b else name
  | none => name

/-- Mirror of `PurePath.with_suffix(newSuffix)` for a valid new suffix: drop the
old suffix (`name[:-len(suffix)]` when non-empty) and append the new
one. -/
def withSuffix (name : List Char) (newSuffix : List Char) : List Char :=
  name.take (name.length - (pySuffix name).length) ++ newSuffix

/-- Mirror of `str.lower()` restricted to the ASCII names this repository deals
with. -/
def lowerChars (s : List Char) : List Char := s.map Char.toLower

/-- The recognized source extension, `'.html'`. -/
def htmlExt : List Char := ".html".toList

/-- The fixed destination extension, `'.pdf'`. -/
def pdfExt : List Char := ".pdf".toList

/-- Formatting parameters of a `page.pdf(...)` call. -/
structure PdfOptions where
  format : List Char
  marginTop : List Char
  marginRight : List Char
  marginBottom : List Char
  marginLeft : List Char
  printBackground : Bool
  preferCssPageSize : Bool
deriving DecidableEq

/-- The awaited Playwright call sites appearing in the two conversion
functions; each is a point where the collaborator may raise. -/
inductive Stage
  | launch
  | newPage
  | gotoUrl
  | waitTimeout
  | pdfRender
  | pageClose
  | browserClose
deriving DecidableEq

/-- Observable effects of a conversion run: directory creation plus the
Playwright calls that completed without raising. -/
inductive Event
  | launch
  | newPage (src : FsPath)
  | gotoUrl (src : FsPath)
  | waitTimeout (src : FsPath) (ms : Nat)
  | pdfRender (src : FsPath) (dest : FsPath) (opts : PdfOptions)
  | pageClose (src : FsPath)
  | browserClose
  | mkdir (dir : List (List Char))
deriving DecidableEq

/-- The outside world: filesystem queries and the rendering
collaborator.  `raiseAt src s` is the exception message the collaborator
raises at call site `s` while processing `src` (`none` = the call
succeeds); `produced src` is whether the destination file exists when
the code checks it after a raise-free render of `src`. -/
structure Env where
  playwright : Bool
  pexists : FsPath → Bool
  is_file : FsPath → Bool
  is_dir : FsPath → Bool
  listing : FsPath → List (List Char)
  raiseAt : FsPath → Stage → Option (List Char)
  produced : FsPath → Bool

/-- Run a sequence of awaited call sites for one source file: emit each
stage's event while the collaborator does not raise; stop at the first
raising stage and report its message. -/
def runStages (env : Env) (src : FsPath) :
    List (Stage × Event) → List Event × Option (List Char)
  | [] => ([], none)
  | (s, e) :: rest =>
    match env.raiseAt src s with
    | some msg => ([], some msg)
    | none =>
      let r := runStages env src rest
      (e :: r.1, r.2)

/-- The awaited steps inside the per-file try-block of
`batch_convert_directory_async` (pdf_generator.py lines 126-154), in
source order, with the literal `page.pdf` arguments of lines 141-152. -/
def batchStages (src dest : FsPath) : List (Stage × Event) :=
  [(.newPage, .newPage src),
   (.gotoUrl, .gotoUrl src),
   (.waitTimeout, .waitTimeout src 1000),
   (.pdfRender, .pdfRender src dest
      ⟨"Letter".toList, "0.75in".toList, "0.75in".toList,
       "0.75in".toList, "0.75in".toList, true, true⟩),
   (.pageClose, .pageClose src)]

/-- Per-file outcome, one per loop iteration: the `✓ Generated` line
(with the path appended to `generated_pdfs`), the `✗ Failed to
generate` line, or the `✗ Error converting` line printed by the
`except` clause. -/
inductive FileResult
  | generated (dest : FsPath)
  | noOutput (src : FsPath)
  | errored (src : FsPath) (msg : List Char)
deriving DecidableEq

/-- One iteration of the batch for-loop (pdf_generator.py lines
124-163): derive the destination `pdf_path / (stem + '.pdf')`, run the
awaited steps; an exception yields `errored`, otherwise the
`pdf_output_path.exists()` check decides `generated` vs `noOutput`. -/
def convertOne (env : Env) (pdfDir : FsPath) (src : FsPath) :
    List Event × FileResult :=
  let dest := childOf pdfDir (pyStem src.base ++ pdfExt)
  let r := runStages env src (batchStages src dest)
  match r.2 with
  | some msg => (r.1, .errored src msg)
  | none => (r.1, if env.produced src then .generated dest else .noOutput src)

/-- The batch for-loop over the globbed files, accumulating the event
trace and one `FileResult` per file. -/
def batchLoop (env : Env) (pdfDir : FsPath) :
    List FsPath → List Event × List FileResult
  | [] => ([], [])
  | f :: fs =>
    let r := convertOne env pdfDir f
    let rest := batchLoop env pdfDir fs
    (r.1 ++ rest.1, r.2 :: rest.2)

/-- Mirror of `html_path.glob("*.html")`: the immediate children whose name ends
in the literal `.html` (pathlib globbing is case-sensitive and applies
no dotfile special-casing). -/
def globHtml (env : Env) (d : FsPath) : List (List Char) :=
  (env.listing d).filter (fun n => htmlExt.isSuffixOf n)

/-- The `pdf_dir` of `batch_convert_directory_async` (lines 104-107):
the supplied directory, else `html_path.parent / "PDF"`. -/
def batchPdfDir (htmlDir : FsPath) (pdfDirArg : Option FsPath) : FsPath :=
  match pdfDirArg with
  | some d => d
  | none => ⟨htmlDir.dir, "PDF".toList⟩

/-- Observable behavior of `batch_convert_directory_async`: the
`✗ HTML directory not found` early return (Python returns `[]`), the
`✗ No HTML files found` early return (Python returns `[]`, after having
created `pdfDir`), or a completed run with its trace and per-file
outcomes. -/
inductive BatchOutcome
  | inputNotFound
  | noMatchingFiles (pdfDir : FsPath)
  | ran (pdfDir : FsPath) (trace : List Event) (results : List FileResult)
deriving DecidableEq

/-- Embedding of `batch_convert_directory_async` (pdf_generator.py lines 96-167).
The browser is launched once before the loop and closed once after it;
`p.chromium.launch()` itself is modelled as succeeding (a launch failure
would propagate out of the Python function uncaught). -/
def batch_convert_directory_async (env : Env) (htmlDir : FsPath)
    (pdfDirArg : Option FsPath) : BatchOutcome :=
  if env.pexists htmlDir = false then .inputNotFound
  else
    let pdfDir := batchPdfDir htmlDir pdfDirArg
    let htmlNames := globHtml env htmlDir
    if htmlNames = [] then .noMatchingFiles pdfDir
    else
      let files := htmlNames.map (fun n => childOf htmlDir n)
      let r := batchLoop env pdfDir files
      .ran pdfDir (Event.launch :: (r.1 ++ [Event.browserClose])) r.2

/-- The `generated_pdfs` list aggregated by the loop: destinations
appended on the `✓` branch, in order. -/
def generatedOf : List FileResult → List FsPath
  | [] => []
  | .generated d :: rs => d :: generatedOf rs
  | .noOutput _ :: rs => generatedOf rs
  | .errored _ _ :: rs => generatedOf rs

/-- The Python return value of `batch_convert_directory_async`: `[]` on
both early exits, else the aggregated `generated_pdfs`. -/
def batchReturn : BatchOutcome → List FsPath
  | .inputNotFound => []
  | .noMatchingFiles _ => []
  | .ran _ _ rs => generatedOf rs

/-- The per-file outcomes of a batch run (`[]` on the early exits). -/
def batchResults : BatchOutcome → List FileResult
  | .inputNotFound => []
  | .noMatchingFiles _ => []
  | .ran _ _ rs => rs

/-- The event trace of a batch run (`[]` on the early exits). -/
def batchTrace : BatchOutcome → List Event
  | .inputNotFound => []
  | .noMatchingFiles _ => []
  | .ran _ tr _ => tr

/-- The destination computed at pdf_generator.py lines 41-45:
`Path(output_dir) / (stem + '.pdf')` when an output directory is given,
else `html_path.with_suffix('.pdf')`. -/
def singlePdfPath (htmlFile : FsPath) (outputDir : Option FsPath) : FsPath :=
  match outputDir with
  | some d => childOf d (pyStem htmlFile.base ++ pdfExt)
  | none => ⟨htmlFile.dir, withSuffix htmlFile.base pdfExt⟩

/-- The awaited steps inside the try-block of
`convert_html_to_pdf_async` (lines 51-79), in source order, with the
literal `page.pdf` arguments of lines 66-77. -/
def singleStages (src dest : FsPath) : List (Stage × Event) :=
  [(.launch, .launch),
   (.newPage, .newPage src),
   (.gotoUrl, .gotoUrl src),
   (.waitTimeout, .waitTimeout src 2000),
   (.pdfRender, .pdfRender src dest
      ⟨"Letter".toList, "0.75in".toList, "0.75in".toList,
       "0.75in".toList, "0.75in".toList, true, true⟩),
   (.browserClose, .browserClose)]

/-- Observable behavior of `convert_html_to_pdf_async`: the
`✗ HTML file not found` early return (no directory created, no engine
launched), or an attempted conversion with its trace and return value. -/
inductive SingleOutcome
  | notFound
  | attempted (trace : List Event) (result : Option FsPath)
deriving DecidableEq

/-- Embedding of `convert_html_to_pdf_async` (pdf_generator.py lines 34-90): existence
check, destination derivation, `pdf_path.parent.mkdir(...)`, then the
awaited steps; any exception is caught and yields `None`, otherwise the
`pdf_path.exists()` check decides the return value. -/
def convert_html_to_pdf_async (env : Env) (htmlFile : FsPath)
    (outputDir : Option FsPath) : SingleOutcome :=
  if env.pexists htmlFile = false then .notFound
  else
    let pdfPath := singlePdfPath htmlFile outputDir
    let r := runStages env htmlFile (singleStages htmlFile pdfPath)
    let trace := Event.mkdir pdfPath.dir :: r.1
    match r.2 with
    | some _ => .attempted trace none
    | none =>
      .attempted trace (if env.produced htmlFile then some pdfPath else none)

/-- The filesystem/engine effects of a single-file conversion. -/
def singleEffects : SingleOutcome → List Event
  | .notFound => []
  | .attempted tr _ => tr

/-- The Python return value of `convert_html_to_pdf_async`. -/
def singleReturn : SingleOutcome → Option FsPath
  | .notFound => none
  | .attempted _ r => r

/-- Parsed arguments of `Modules/pdf_generator.py main`. -/
structure GenArgs where
  input : Option FsPath
  output : Option FsPath
  checkDeps : Bool
deriving DecidableEq

/-- Exit code of `main()` in `src/Modules/pdf_generator.py` (lines
173-223).  In the directory branch the function prints the summary and
falls off the end of `main`, so the process exits 0 whatever the batch
outcome was; the single-file branch exits 1 when the conversion
returned `None`.  A `p.chromium.launch()` failure inside the batch
(which would crash the process) is outside the model, as in
`batch_convert_directory_async`. -/
def pdf_generator_main (env : Env) (args : GenArgs) : Nat :=
  if args.checkDeps then
    if env.playwright then 0 else 1
  else
    match args.input with
    | none => 1
    | some inp =>
      if env.playwright = false then 1
      else if env.is_file inp = true ∧ lowerChars (pySuffix inp.base) = htmlExt
      then
        match singleReturn (convert_html_to_pdf_async env inp args.output) with
        | some _ => 0
        | none => 1
      else if env.is_dir inp = true then
        -- generated_pdfs is computed only for the summary line; main
        -- then falls off the end, so the process exits 0 regardless.
        let _generated :=
          batchReturn (batch_convert_directory_async env inp args.output)
        0
      else 1

/-- Parsed arguments of `generate_pdfs.py main`. -/
structure WrapArgs where
  input : Option FsPath
  output : Option FsPath
  check : Bool
deriving DecidableEq

/-- The `output_dir` computed by `generate_pdfs.py` lines 89-98: the
supplied directory, else `input_path.parent / "PDF"` (the same default
for file and directory inputs). -/
def wrapOutDir (args : WrapArgs) (inp : FsPath) : FsPath :=
  match args.output with
  | some d => d
  | none => ⟨inp.dir, "PDF".toList⟩

/-- The part of `generate_pdfs.py main` after the prerequisite block
(lines 81-136): existence check, output-directory selection, then the
single-file / directory / invalid-input branches with their exit
codes. -/
def generate_pdfs_body (env : Env) (args : WrapArgs) (inp : FsPath) : Nat :=
  if env.pexists inp = false then 1
  else
    let outputDir := wrapOutDir args inp
    if env.is_file inp = true ∧ lowerChars (pySuffix inp.base) = htmlExt then
      match singleReturn (convert_html_to_pdf_async env inp (some outputDir))
      with
      | some _ => 0
      | none => 1
    else if env.is_dir inp = true then
      if batchReturn (batch_convert_directory_async env inp (some outputDir))
          = [] then 1
      else 0
    else 1

/-- Exit code of `main()` in `src/generate_pdfs.py` (lines 22-143):
the prerequisite block runs when `--check` was passed or no input was
given (exit 1 when Playwright is missing, exit 0 when it is present and
no input was given), then the body decides the remaining codes.  The
`KeyboardInterrupt`/`Exception` handlers of lines 138-143 never fire in
the model because the embedded conversion functions catch collaborator
exceptions internally. -/
def generate_pdfs_main (env : Env) (args : WrapArgs) : Nat :=
  if args.check = true ∨ args.input = none then
    if env.playwright then
      match args.input with
      | none => 0
      | some inp => generate_pdfs_body env args inp
    else 1
  else
    match args.input with
    | none => 1
    | some inp => generate_pdfs_body env args inp

/-- Whether the collaborator raises at any of the per-file awaited call
sites of the batch loop for this source file. -/
def batchRaises (env : Env) (src : FsPath) : Bool :=
  [Stage.newPage, Stage.gotoUrl, Stage.waitTimeout, Stage.pdfRender,
   Stage.pageClose].any (fun s => (env.raiseAt src s).isSome)

/-- Modelled from the spec: "page size = Letter; margins = 0.75 inch on
all four sides; backgrounds included; CSS-declared page size take
precedence over the page-size parameter" — the formatting parameters
every rasterization request is claimed to carry. -/
def specFormattingOptions : PdfOptions :=
  ⟨"Letter".toList, "0.75in".toList, "0.75in".toList,
   "0.75in".toList, "0.75in".toList, true, true⟩

/-- The exact condition under which `pdf_generator.py main` exits 0:
dependency check passed, a single-file conversion returned a path, or
the input was a directory (in which case the batch summary is printed
and `main` falls through regardless of how many conversions
succeeded). -/
def gen_exit_zero (env : Env) (args : GenArgs) : Prop :=
  (args.checkDeps = true ∧ env.playwright = true) ∨
  (args.checkDeps = false ∧ env.playwright = true ∧
    ∃ inp, args.input = some inp ∧
      ((env.is_file inp = true ∧ lowerChars (pySuffix inp.base) = htmlExt ∧
          singleReturn (convert_html_to_pdf_async env inp args.output)
            ≠ none) ∨
       (¬(env.is_file inp = true ∧ lowerChars (pySuffix inp.base) = htmlExt)
          ∧ env.is_dir inp = true)))

/-- The exact condition under which the post-prerequisite part of
`generate_pdfs.py main` exits 0: the input exists and either its single
conversion returned a path or it is a directory whose batch returned at
least one generated PDF. -/
def body_exit_zero (env : Env) (args : WrapArgs) (inp : FsPath) : Prop :=
  env.pexists inp = true ∧
  ((env.is_file inp = true ∧ lowerChars (pySuffix inp.base) = htmlExt ∧
      singleReturn
        (convert_html_to_pdf_async env inp (some (wrapOutDir args inp)))
        ≠ none) ∨
   (¬(env.is_file inp = true ∧ lowerChars (pySuffix inp.base) = htmlExt) ∧
      env.is_dir inp = true ∧
      batchReturn
        (batch_convert_directory_async env inp (some (wrapOutDir args inp)))
        ≠ []))

/-- The exact condition under which `generate_pdfs.py main` exits 0:
Playwright must be importable whenever the prerequisite block runs
(`--check` passed or no input), and either there was no input (check-only
invocation) or the body succeeded for the given input. -/
def wrap_exit_zero (env : Env) (args : WrapArgs) : Prop :=
  ((args.check = true ∨ args.input = none) → env.playwright = true) ∧
  (args.input = none ∨
    ∃ inp, args.input = some inp ∧ body_exit_zero env args inp)

/-- Example input directory. -/
def dirMaps : FsPath := ⟨[], "maps".toList⟩

/-- Example output directory. -/
def dirPDF : FsPath := ⟨[], "PDF".toList⟩

/-- Example HTML source files inside `dirMaps`. -/
def fileA : FsPath := ⟨["maps".toList], "a.html".toList⟩

def fileB : FsPath := ⟨["maps".toList], "b.html".toList⟩

def fileC : FsPath := ⟨["maps".toList], "c.html".toList⟩

/-- A world where every path exists, `dirMaps`-style listings hold two
HTML files and one other file, the collaborator never raises, and every
render materializes its output. -/
def envTwoFiles : Env where
  playwright := true
  pexists := fun _ => true
  is_file := fun _ => false
  is_dir := fun _ => true
  listing := fun _ => ["a.html".toList, "b.html".toList, "notes.txt".toList]
  raiseAt := fun _ _ => none
  produced := fun _ => true

/-- A world with three HTML files where the collaborator raises while
loading `fileB` and succeeds on everything else. -/
def envSecondRaises : Env where
  playwright := true
  pexists := fun _ => true
  is_file := fun _ => false
  is_dir := fun _ => true
  listing := fun _ => ["a.html".toList, "b.html".toList, "c.html".toList]
  raiseAt := fun src st =>
    if src = fileB then
      (if st = Stage.gotoUrl then some ("boom".toList) else none)
    else none
  produced := fun _ => true

/-- A world with one HTML file whose conversion raises, so a batch over
it generates zero PDFs. -/
def envOneFailing : Env where
  playwright := true
  pexists := fun _ => true
  is_file := fun _ => false
  is_dir := fun _ => true
  listing := fun _ => ["a.html".toList]
  raiseAt := fun _ st =>
    if st = Stage.gotoUrl then some ("boom".toList) else none
  produced := fun _ => true

/-- A world where the collaborator raises at the `page.pdf` call for
`fileA` only. -/
def envFirstPdfRaises : Env where
  playwright := true
  pexists := fun _ => true
  is_file := fun _ => false
  is_dir := fun _ => true
  listing := fun _ => ["a.html".toList, "b.html".toList]
  raiseAt := fun src st =>
    if src = fileA then
      (if st = Stage.pdfRender then some ("boom".toList) else none)
    else none
  produced := fun _ => true

/-- A world in which no path exists. -/
def envNothingExists : Env where
  playwright := true
  pexists := fun _ => false
  is_file := fun _ => false
  is_dir := fun _ => false
  listing := fun _ => []
  raiseAt := fun _ _ => none
  produced := fun _ => false

/-- A world where the input directory exists but holds no file with
the `.html` extension. -/
def envNoHtml : Env where
  playwright := true
  pexists := fun _ => true
  is_file := fun _ => false
  is_dir := fun _ => true
  listing := fun _ => ["readme.txt".toList]
  raiseAt := fun _ _ => none
  produced := fun _ => false

/-- Arguments: convert the directory `dirMaps`, no output option, no
dependency check. -/
def argsDirNoOut : GenArgs := ⟨some dirMaps, none, false⟩

/-- Example single-file input `home/notes.html`. -/
def notesFile : FsPath := ⟨["home".toList], "notes.html".toList⟩

/-- Example explicit output directory `X`. -/
def outDirX : FsPath := ⟨[], "X".toList⟩

/-- Example mixed-case single-file input `Report.HTML`. -/
def reportFile : FsPath := ⟨["home".toList], "Report.HTML".toList⟩

theorem splitLastDot_eq (name b a : List Char)
    (h : splitLastDot name = some (b, a)) : name = b ++ '.' :: a := by
  induction name generalizing b a with
  | nil => simp [splitLastDot] at h
  | cons c cs ih =>
    rw [splitLastDot] at h
    rcases hcs : splitLastDot cs with _ | ⟨b', a'⟩
    · rw [hcs] at h
      by_cases hc : c = '.'
      · simp [hc] at h
        simp [hc, ← h.1, ← h.2]
      · simp [hc] at h
    · rw [hcs] at h
      simp only [Option.some_inj, Prod.mk.injEq] at h
      obtain ⟨hb, ha⟩ := h
      subst hb ha
      simpa using ih b' a' hcs

/-- The name always decomposes as its stem followed by its suffix. -/
theorem stem_append_suffix (name : List Char) :
    pyStem name ++ pySuffix name = name := by
  unfold pyStem pySuffix
  rcases h : splitLastDot name with _ | ⟨b, a⟩
  · simp
  · by_cases hba : b ≠ [] ∧ a ≠ []
    · simpa [hba.1, hba.2] using (splitLastDot_eq name b a h).symm
    · simp only []
      rw [if_neg hba, if_neg hba]
      simp

theorem length_stem_add_suffix (name : List Char) :
    (pyStem name).length + (pySuffix name).length = name.length := by
  have h := congrArg List.length (stem_append_suffix name)
  simpa using h

theorem pyStem_length (name : List Char) :
    (pyStem name).length = name.length - (pySuffix name).length := by
  have h := length_stem_add_suffix name
  omega

/-- Applying `with_suffix` equals appending the new suffix to the stem. -/
theorem withSuffix_eq (name newSuffix : List Char) :
    withSuffix name newSuffix = pyStem name ++ newSuffix := by
  unfold withSuffix
  rw [← pyStem_length]
  have h2 : (pyStem name ++ pySuffix name).take (pyStem name).length
      = pyStem name := List.take_left _ _
  rw [stem_append_suffix] at h2
  rw [h2]

theorem runStages_fst_mem (env : Env) (src : FsPath)
    (l : List (Stage × Event)) (e : Event)
    (he : e ∈ (runStages env src l).1) : e ∈ l.map Prod.snd := by
  induction l with
  | nil => simp [runStages] at he
  | cons se rest ih =>
    rw [runStages] at he
    rcases h : env.raiseAt src se.1 with _ | msg
    · rw [h] at he
      simp only [List.mem_cons] at he
      rcases he with he | he
      · simp [he]
      · simp [ih he]
    · rw [h] at he
      simp at he

theorem runStages_fst_of_none (env : Env) (src : FsPath)
    (l : List (Stage × Event)) (h : (runStages env src l).2 = none) :
    (runStages env src l).1 = l.map Prod.snd := by
  induction l with
  | nil => simp [runStages]
  | cons se rest ih =>
    rw [runStages] at h ⊢
    rcases hr : env.raiseAt src se.1 with _ | msg
    · rw [hr] at h
      simp only at h
      simp [ih h]
    · rw [hr] at h
      simp at h

theorem runStages_isSome (env : Env) (src : FsPath)
    (l : List (Stage × Event)) :
    (runStages env src l).2.isSome
      = l.any (fun se => (env.raiseAt src se.1).isSome) := by
  induction l with
  | nil => simp [runStages]
  | cons se rest ih =>
    rw [runStages]
    rcases hr : env.raiseAt src se.1 with _ | msg
    · simp [hr, ih]
    · simp [hr]

theorem batchRaises_eq_any (env : Env) (f dest : FsPath) :
    ((batchStages f dest).any (fun se => (env.raiseAt f se.1).isSome))
      = batchRaises env f := rfl

theorem convertOne_fst (env : Env) (d f : FsPath) :
    (convertOne env d f).1
      = (runStages env f
          (batchStages f (childOf d (pyStem f.base ++ pdfExt)))).1 := by
  unfold convertOne
  rcases h : (runStages env f
      (batchStages f (childOf d (pyStem f.base ++ pdfExt)))).2 with _ | msg
  · simp [h]
  · simp [h]

theorem convertOne_errored (env : Env) (d f : FsPath)
    (h : batchRaises env f = true) :
    ∃ msg, (convertOne env d f).2 = .errored f msg := by
  have hs : (runStages env f
      (batchStages f (childOf d (pyStem f.base ++ pdfExt)))).2.isSome
        = true := by
    rw [runStages_isSome, batchRaises_eq_any, h]
  rcases hx : (runStages env f
      (batchStages f (childOf d (pyStem f.base ++ pdfExt)))).2 with _ | msg
  · rw [hx] at hs
    simp at hs
  · exact ⟨msg, by simp only [convertOne]; rw [hx]⟩

theorem batchLoop_length (env : Env) (d : FsPath) (fs : List FsPath) :
    ((batchLoop env d fs).2).length = fs.length := by
  induction fs with
  | nil => simp [batchLoop]
  | cons f rest ih => simp [batchLoop, ih]

theorem batchLoop_getElem (env : Env) (d : FsPath) (fs : List FsPath)
    (i : Nat) :
    ((batchLoop env d fs).2)[i]?
      = (fs[i]?).map (fun f => (convertOne env d f).2) := by
  induction fs generalizing i with
  | nil => simp [batchLoop]
  | cons f rest ih =>
    cases i with
    | zero => simp [batchLoop]
    | succ j => simp [batchLoop, ih]

theorem batchLoop_fst_mem (env : Env) (d : FsPath) (fs : List FsPath)
    (e : Event) (he : e ∈ (batchLoop env d fs).1) :
    ∃ f, f ∈ fs ∧ e ∈ (convertOne env d f).1 := by
  induction fs with
  | nil => simp [batchLoop] at he
  | cons f rest ih =>
    rw [batchLoop] at he
    simp only [List.mem_append] at he
    rcases he with he | he
    · exact ⟨f, by simp, he⟩
    · obtain ⟨g, hg, hge⟩ := ih he
      exact ⟨g, by simp [hg], hge⟩

theorem convertOne_trace_mem (env : Env) (d f : FsPath) (e : Event)
    (he : e ∈ (convertOne env d f).1) :
    e ∈ (batchStages f (childOf d (pyStem f.base ++ pdfExt))).map
      Prod.snd := by
  rw [convertOne_fst] at he
  exact runStages_fst_mem env f _ e he

/-- C1: for every directory input, a completed batch run produces
exactly one per-file outcome (success or failure) per discovered
`*.html` file: the number of `FileResult` entries equals the number of
files the glob resolved — none is silently dropped. -/
theorem batch_result_count_eq_request_count (env : Env) (dir : FsPath)
    (parg : Option FsPath) (pd : FsPath) (tr : List Event)
    (rs : List FileResult)
    (h : batch_convert_directory_async env dir parg = .ran pd tr rs) :
    rs.length = (globHtml env dir).length := by
  rw [batch_convert_directory_async] at h
  by_cases h1 : env.pexists dir = false
  · rw [if_pos h1] at h
    simp at h
  · rw [if_neg h1] at h
    dsimp only at h
    by_cases h2 : globHtml env dir = []
    · rw [if_pos h2] at h
      simp at h
    · rw [if_neg h2] at h
      simp only [BatchOutcome.ran.injEq] at h
      rw [← h.2.2, batchLoop_length, List.length_map]

/-- C1 witness: on a concrete directory with two `.html` files and one
other file, the completed run has as many results as resolved files. -/
theorem batch_result_count_witness :
    (batchResults
      (batch_convert_directory_async envTwoFiles dirMaps none)).length
      = (globHtml envTwoFiles dirMaps).length := by
  have hne :
      (batchResults
        (batch_convert_directory_async envTwoFiles dirMaps none)).length
        = 2 := by decide
  rcases hE : batch_convert_directory_async envTwoFiles dirMaps none with
    _ | pd | ⟨pd, tr, rs⟩
  · rw [hE] at hne
    simp [batchResults] at hne
  · rw [hE] at hne
    simp [batchResults] at hne
  · simpa [batchResults] using
      batch_result_count_eq_request_count envTwoFiles dirMaps none
        pd tr rs hE

/-- C4: for a single HTML file (extension `.html` in any case) with no
output directory, the destination is the source's own directory with
the extension replaced by `.pdf` (the name decomposes as stem followed
by suffix, and the derived name is the stem plus `.pdf`); with an
output directory `X`, the destination is `X/<stem>.pdf`. -/
theorem single_dest_derivation (p : FsPath)
    (_h : lowerChars (pySuffix p.base) = htmlExt) :
    singlePdfPath p none = ⟨p.dir, pyStem p.base ++ pdfExt⟩ ∧
    pyStem p.base ++ pySuffix p.base = p.base ∧
    ∀ X, singlePdfPath p (some X) = childOf X (pyStem p.base ++ pdfExt) := by
  refine ⟨?_, stem_append_suffix p.base, fun X => rfl⟩
  simp [singlePdfPath, withSuffix_eq]

/-- C4 witness: `home/notes.html` maps to `home/notes.pdf` beside it
with no output directory, and to `X/notes.pdf` with output directory
`X`. -/
theorem single_dest_witness :
    singlePdfPath notesFile none
      = ⟨notesFile.dir, pyStem notesFile.base ++ pdfExt⟩ ∧
    pyStem notesFile.base ++ pySuffix notesFile.base = notesFile.base ∧
    singlePdfPath notesFile (some outDirX)
      = childOf outDirX (pyStem notesFile.base ++ pdfExt) ∧
    singlePdfPath notesFile none = ⟨["home".toList], "notes.pdf".toList⟩ ∧
    singlePdfPath notesFile (some outDirX)
      = ⟨["X".toList], "notes.pdf".toList⟩ :=
  ⟨(single_dest_derivation notesFile (by decide)).1,
   (single_dest_derivation notesFile (by decide)).2.1,
   (single_dest_derivation notesFile (by decide)).2.2 outDirX,
   by decide, by decide⟩

/-- C5: the batch resolver fails with its input-not-found outcome for
every non-existent input path, and with its no-matching-files outcome
for every existing directory whose listing has no `.html` entry; a
completed run implies at least one matching file was found, so neither
error case is a silent empty success. -/
theorem resolve_failure_modes (env : Env) (d : FsPath)
    (parg : Option FsPath) :
    (env.pexists d = false →
       batch_convert_directory_async env d parg = .inputNotFound) ∧
    (env.pexists d = true → globHtml env d = [] →
       batch_convert_directory_async env d parg
         = .noMatchingFiles (batchPdfDir d parg)) ∧
    (∀ pd tr rs,
       batch_convert_directory_async env d parg = .ran pd tr rs →
         globHtml env d ≠ []) := by
  refine ⟨fun h1 => ?_, fun h1 h2 => ?_, fun pd tr rs h => ?_⟩
  · rw [batch_convert_directory_async, if_pos h1]
  · rw [batch_convert_directory_async, if_neg (by simp [h1])]
    dsimp only
    rw [if_pos h2]
  · intro hglob
    rw [batch_convert_directory_async] at h
    by_cases h1 : env.pexists d = false
    · rw [if_pos h1] at h
      simp at h
    · rw [if_neg h1] at h
      dsimp only at h
      rw [if_pos hglob] at h
      simp at h

/-- C5 witness: a non-existent input yields the input-not-found
outcome; an existing directory holding only `readme.txt` yields the
no-matching-files outcome. -/
theorem resolve_failure_modes_witness :
    batch_convert_directory_async envNothingExists dirMaps none
      = BatchOutcome.inputNotFound ∧
    batch_convert_directory_async envNoHtml dirMaps none
      = BatchOutcome.noMatchingFiles (batchPdfDir dirMaps none) :=
  ⟨(resolve_failure_modes envNothingExists dirMaps none).1 (by decide),
   (resolve_failure_modes envNoHtml dirMaps none).2.1 (by decide)
     (by decide)⟩

/-- C8: for every source name whose suffix is `.html` in any letter
case, the derived destination name is the stem plus the fixed lowercase
`.pdf` — and it is never the full source name with `.pdf` appended. -/
theorem dest_extension_normalized (name : List Char)
    (h : lowerChars (pySuffix name) = htmlExt) :
    withSuffix name pdfExt = pyStem name ++ pdfExt ∧
    pyStem name ++ pdfExt ≠ name ++ pdfExt := by
  refine ⟨withSuffix_eq name pdfExt, fun heq => ?_⟩
  have hlen := congrArg List.length heq
  simp only [List.length_append] at hlen
  have hs : (pySuffix name).length = htmlExt.length := by
    rw [← h]
    simp [lowerChars]
  have hsum := length_stem_add_suffix name
  have h5 : htmlExt.length = 5 := by decide
  omega

/-- C8 witness: `Report.HTML` maps to `Report.pdf`, not to
`Report.HTML.pdf`. -/
theorem dest_extension_witness :
    withSuffix reportFile.base pdfExt
      = pyStem reportFile.base ++ pdfExt ∧
    pyStem reportFile.base ++ pdfExt ≠ reportFile.base ++ pdfExt ∧
    withSuffix reportFile.base pdfExt = "Report.pdf".toList ∧
    singlePdfPath reportFile none
      = ⟨["home".toList], "Report.pdf".toList⟩ :=
  ⟨(dest_extension_normalized reportFile.base (by decide)).1,
   (dest_extension_normalized reportFile.base (by decide)).2,
   by decide, by decide⟩

/-- C10: for every input path that does not exist,
`convert_html_to_pdf_async` returns `None` immediately: no directory is
created, no engine call happens, and nothing is written — the effect
list is empty. -/
theorem missing_input_no_side_effects (env : Env) (f : FsPath)
    (od : Option FsPath) (h : env.pexists f = false) :
    convert_html_to_pdf_async env f od = .notFound ∧
    singleEffects (convert_html_to_pdf_async env f od) = [] ∧
    singleReturn (convert_html_to_pdf_async env f od) = none := by
  have hx : convert_html_to_pdf_async env f od = .notFound := by
    rw [convert_html_to_pdf_async, if_pos h]
  exact ⟨hx, by rw [hx]; rfl, by rw [hx]; rfl⟩

/-- C10 witness: converting `home/notes.html` in a world where it does
not exist returns `None` with no effects. -/
theorem missing_input_witness :
    convert_html_to_pdf_async envNothingExists notesFile none
      = .notFound ∧
    singleEffects (convert_html_to_pdf_async envNothingExists notesFile
      none) = [] ∧
    singleReturn (convert_html_to_pdf_async envNothingExists notesFile
      none) = none :=
  missing_input_no_side_effects envNothingExists notesFile none
    (by decide)

/-- C2: in every batch, every request yields a result (the result list
has one entry per request), and a request for which the collaborator
raises at any of its call sites is recorded as an error carrying the
message while every other request — before and after it — still gets
its own result: one file's failure never aborts the batch. -/
theorem batch_failure_isolated (env : Env) (pdfDir : FsPath)
    (fs : List FsPath) :
    ((batchLoop env pdfDir fs).2).length = fs.length ∧
    ∀ (i : Nat) (f : FsPath), fs[i]? = some f →
      batchRaises env f = true →
      ∃ msg, ((batchLoop env pdfDir fs).2)[i]?
        = some (FileResult.errored f msg) := by
  refine ⟨batchLoop_length env pdfDir fs, fun i f hf hr => ?_⟩
  obtain ⟨msg, hmsg⟩ := convertOne_errored env pdfDir f hr
  refine ⟨msg, ?_⟩
  rw [batchLoop_getElem env pdfDir fs i, hf]
  simp [hmsg]

/-- C2 witness: three requests where the collaborator throws for the
second yield results [Success, Failure, Success]. -/
theorem batch_failure_isolated_witness :
    ((batchLoop envSecondRaises dirPDF [fileA, fileB, fileC]).2).length
      = 3 ∧
    (∃ msg, ((batchLoop envSecondRaises dirPDF [fileA, fileB, fileC]).2)[1]?
      = some (FileResult.errored fileB msg)) ∧
    ((batchLoop envSecondRaises dirPDF [fileA, fileB, fileC]).2)[0]?
      = some (FileResult.generated
          (childOf dirPDF (pyStem fileA.base ++ pdfExt))) ∧
    ((batchLoop envSecondRaises dirPDF [fileA, fileB, fileC]).2)[2]?
      = some (FileResult.generated
          (childOf dirPDF (pyStem fileC.base ++ pdfExt))) :=
  ⟨(batch_failure_isolated envSecondRaises dirPDF [fileA, fileB, fileC]).1,
   (batch_failure_isolated envSecondRaises dirPDF
      [fileA, fileB, fileC]).2 1 fileB rfl (by decide),
   by decide, by decide⟩

/-- C6 counterexample: with the collaborator raising at the `page.pdf`
call for the first of two files, the first file's page is never closed
— not before the second request is processed, nor at all in the batch
trace — even though the second request does run.  This refutes the
claim that the page resource is released on all exit paths before the
next request. -/
theorem page_close_skipped_counterexample :
    batchRaises envFirstPdfRaises fileA = true ∧
    Event.pageClose fileA
      ∉ (batchLoop envFirstPdfRaises dirPDF [fileA, fileB]).1 ∧
    Event.newPage fileB
      ∈ (batchLoop envFirstPdfRaises dirPDF [fileA, fileB]).1 := by
  decide

/-- C6 amended: the per-request page is closed before the next request
exactly on the raise-free paths: the page-close event appears in a
request's trace if and only if the collaborator raised at none of its
call sites, and on such raise-free paths it is the last event of that
request's trace. -/
theorem page_close_iff_no_raise (env : Env) (d src : FsPath) :
    (Event.pageClose src ∈ (convertOne env d src).1 ↔
       batchRaises env src = false) ∧
    (batchRaises env src = false →
       ((convertOne env d src).1).getLast?
         = some (Event.pageClose src)) := by
  rcases h1 : env.raiseAt src Stage.newPage with _ | m1
  · rcases h2 : env.raiseAt src Stage.gotoUrl with _ | m2
    · rcases h3 : env.raiseAt src Stage.waitTimeout with _ | m3
      · rcases h4 : env.raiseAt src Stage.pdfRender with _ | m4
        · rcases h5 : env.raiseAt src Stage.pageClose with _ | m5
          · simp [convertOne, batchStages, runStages, batchRaises,
              h1, h2, h3, h4, h5]
          · simp [convertOne, batchStages, runStages, batchRaises,
              h1, h2, h3, h4, h5]
        · simp [convertOne, batchStages, runStages, batchRaises,
            h1, h2, h3, h4]
      · simp [convertOne, batchStages, runStages, batchRaises,
          h1, h2, h3]
    · simp [convertOne, batchStages, runStages, batchRaises, h1, h2]
  · simp [convertOne, batchStages, runStages, batchRaises, h1]

/-- C6 amended witness: in a raise-free world the page-close event
closes the first file's trace. -/
theorem page_close_iff_no_raise_witness :
    (Event.pageClose fileA ∈ (convertOne envTwoFiles dirPDF fileA).1 ↔
       batchRaises envTwoFiles fileA = false) ∧
    ((convertOne envTwoFiles dirPDF fileA).1).getLast?
      = some (Event.pageClose fileA) :=
  ⟨(page_close_iff_no_raise envTwoFiles dirPDF fileA).1,
   (page_close_iff_no_raise envTwoFiles dirPDF fileA).2 (by decide)⟩

/-- C7: in every completed batch run the browser session is launched
exactly once, as the very first event, and closed exactly once, as the
very last event — no per-request processing launches or closes the
shared session, even when individual requests raise. -/
theorem session_opened_closed_once (env : Env) (d : FsPath)
    (parg : Option FsPath) (pd : FsPath) (tr : List Event)
    (rs : List FileResult)
    (h : batch_convert_directory_async env d parg = .ran pd tr rs) :
    ∃ mid, tr = Event.launch :: (mid ++ [Event.browserClose]) ∧
      Event.launch ∉ mid ∧ Event.browserClose ∉ mid := by
  rw [batch_convert_directory_async] at h
  by_cases h1 : env.pexists d = false
  · rw [if_pos h1] at h
    simp at h
  · rw [if_neg h1] at h
    dsimp only at h
    by_cases h2 : globHtml env d = []
    · rw [if_pos h2] at h
      simp at h
    · rw [if_neg h2] at h
      simp only [BatchOutcome.ran.injEq] at h
      refine ⟨(batchLoop env (batchPdfDir d parg)
        ((globHtml env d).map (fun n => childOf d n))).1,
        h.2.1.symm, ?_, ?_⟩
      · intro hmem
        obtain ⟨f, _, hfe⟩ := batchLoop_fst_mem env _ _ _ hmem
        have := convertOne_trace_mem env _ f _ hfe
        simp [batchStages] at this
      · intro hmem
        obtain ⟨f, _, hfe⟩ := batchLoop_fst_mem env _ _ _ hmem
        have := convertOne_trace_mem env _ f _ hfe
        simp [batchStages] at this

/-- C7 witness: in a concrete batch over three files where the second
request raises, the trace still opens with one launch and ends with one
browser close, neither occurring in between. -/
theorem session_opened_closed_once_witness :
    ∃ mid,
      batchTrace
        (batch_convert_directory_async envSecondRaises dirMaps none)
        = Event.launch :: (mid ++ [Event.browserClose]) ∧
      Event.launch ∉ mid ∧ Event.browserClose ∉ mid := by
  have hne :
      (batchResults
        (batch_convert_directory_async envSecondRaises dirMaps none)).length
        = 3 := by decide
  rcases hE : batch_convert_directory_async envSecondRaises dirMaps none
    with _ | pd | ⟨pd, tr, rs⟩
  · rw [hE] at hne
    simp [batchResults] at hne
  · rw [hE] at hne
    simp [batchResults] at hne
  · simpa [batchTrace] using
      session_opened_closed_once envSecondRaises dirMaps none pd tr rs hE

/-- C9: every rasterization request issued to the collaborator — in
both single-file and batch mode — carries exactly the fixed parameters
the spec states: page size Letter, 0.75-inch margins on all four sides,
backgrounds printed, and CSS page size preferred. -/
theorem fixed_formatting_options :
    (∀ env f od src dest o,
       Event.pdfRender src dest o
         ∈ singleEffects (convert_html_to_pdf_async env f od) →
       o = specFormattingOptions) ∧
    (∀ env d parg src dest o,
       Event.pdfRender src dest o
         ∈ batchTrace (batch_convert_directory_async env d parg) →
       o = specFormattingOptions) := by
  constructor
  · intro env f od src dest o hmem
    rw [convert_html_to_pdf_async] at hmem
    by_cases h1 : env.pexists f = false
    · rw [if_pos h1] at hmem
      simp [singleEffects] at hmem
    · rw [if_neg h1] at hmem
      dsimp only at hmem
      rcases hx : (runStages env f
          (singleStages f (singlePdfPath f od))).2 with _ | msg
      · rw [hx] at hmem
        simp only [singleEffects, List.mem_cons] at hmem
        rcases hmem with hmem | hmem
        · simp at hmem
        · have := runStages_fst_mem env f _ _ hmem
          simp only [singleStages, List.map_cons, List.map_nil,
            List.mem_cons, List.not_mem_nil, or_false] at this
          rcases this with h | h | h | h | h | h <;>
            first
              | (exact (Event.pdfRender.inj h).2.2)
              | (simp at h)
      · rw [hx] at hmem
        simp only [singleEffects, List.mem_cons] at hmem
        rcases hmem with hmem | hmem
        · simp at hmem
        · have := runStages_fst_mem env f _ _ hmem
          simp only [singleStages, List.map_cons, List.map_nil,
            List.mem_cons, List.not_mem_nil, or_false] at this
          rcases this with h | h | h | h | h | h <;>
            first
              | (exact (Event.pdfRender.inj h).2.2)
              | (simp at h)
  · intro env d parg src dest o hmem
    rw [batch_convert_directory_async] at hmem
    by_cases h1 : env.pexists d = false
    · rw [if_pos h1] at hmem
      simp [batchTrace] at hmem
    · rw [if_neg h1] at hmem
      dsimp only at hmem
      by_cases h2 : globHtml env d = []
      · rw [if_pos h2] at hmem
        simp [batchTrace] at hmem
      · rw [if_neg h2] at hmem
        simp only [batchTrace, List.mem_cons, List.mem_append] at hmem
        rcases hmem with hmem | hmem | hmem
        · simp at hmem
        · obtain ⟨f, _, hfe⟩ := batchLoop_fst_mem env _ _ _ hmem
          have := convertOne_trace_mem env _ f _ hfe
          simp only [batchStages, List.map_cons, List.map_nil,
            List.mem_cons, List.not_mem_nil, or_false] at this
          rcases this with h | h | h | h | h <;>
            first
              | (exact (Event.pdfRender.inj h).2.2)
              | (simp at h)
        · simp at hmem

/-- C9 witness: a concrete raise-free single-file conversion issues a
rasterization request, and its parameters are the fixed ones. -/
theorem fixed_formatting_options_witness :
    Event.pdfRender notesFile (singlePdfPath notesFile none)
        specFormattingOptions
      ∈ singleEffects
          (convert_html_to_pdf_async envTwoFiles notesFile none) ∧
    specFormattingOptions = specFormattingOptions :=
  ⟨by decide,
   fixed_formatting_options.1 envTwoFiles notesFile none notesFile
     (singlePdfPath notesFile none) specFormattingOptions (by decide)⟩

/-- C3 counterexample: a directory invocation of `pdf_generator.py`
(no `--check-deps`) whose only HTML file fails to convert — zero
conversions succeed, the batch returns the empty list — still exits 0,
refuting "exit code 0 iff at least one conversion succeeded (or a
dependency check passed)" and "1 for zero successes in batch mode". -/
theorem exit_code_counterexample :
    pdf_generator_main envOneFailing argsDirNoOut = 0 ∧
    argsDirNoOut.checkDeps = false ∧
    batchReturn
      (batch_convert_directory_async envOneFailing dirMaps
        argsDirNoOut.output) = [] := by
  decide

/-- The post-prerequisite part of `generate_pdfs.py main` exits 0
exactly under `body_exit_zero`. -/
theorem generate_pdfs_body_iff (env : Env) (args : WrapArgs)
    (inp : FsPath) :
    generate_pdfs_body env args inp = 0 ↔ body_exit_zero env args inp := by
  unfold generate_pdfs_body body_exit_zero
  cases hp : env.pexists inp with
  | false => simp [hp]
  | true =>
    simp only [hp, Bool.true_eq_false, if_false]
    by_cases hA : env.is_file inp = true
    · by_cases hB : lowerChars (pySuffix inp.base) = htmlExt
      · rw [if_pos ⟨hA, hB⟩]
        rcases hs : singleReturn
            (convert_html_to_pdf_async env inp
              (some (wrapOutDir args inp))) with _ | p
        · simp [hs, hA, hB]
        · simp [hs, hA, hB]
      · rw [if_neg (by simp [hB])]
        by_cases hd : env.is_dir inp = true
        · rw [if_pos hd]
          by_cases hb : batchReturn
              (batch_convert_directory_async env inp
                (some (wrapOutDir args inp))) = []
          · simp [hb, hB, hd]
          · simp [hb, hB, hd]
        · rw [if_neg hd]
          simp [hB, hd]
    · rw [if_neg (by simp [hA])]
      by_cases hd : env.is_dir inp = true
      · rw [if_pos hd]
        by_cases hb : batchReturn
            (batch_convert_directory_async env inp
              (some (wrapOutDir args inp))) = []
        · simp [hb, hA, hd]
        · simp [hb, hA, hd]
      · rw [if_neg hd]
        simp [hA, hd]

/-- C3 amended: the exit codes are fully characterized by
`gen_exit_zero` and `wrap_exit_zero`: `generate_pdfs.py` exits 1 for
invalid input, missing prerequisites, a single-file conversion failure
and zero successes in batch mode, as claimed; `pdf_generator.py main`,
however, exits 0 in directory mode regardless of the number of
successes (the claim's "zero successes in batch mode exits 1" holds
only for the `generate_pdfs.py` entry point). -/
theorem exit_code_characterization :
    (∀ env args, pdf_generator_main env args = 0 ↔
       gen_exit_zero env args) ∧
    (∀ env args, generate_pdfs_main env args = 0 ↔
       wrap_exit_zero env args) := by
  constructor
  · intro env args
    unfold pdf_generator_main gen_exit_zero
    cases hc : args.checkDeps with
    | true =>
      cases hp : env.playwright with
      | true => simp [hp]
      | false => simp [hp]
    | false =>
      simp only [Bool.false_eq_true, if_false]
      rcases hi : args.input with _ | inp
      · simp
      · cases hp : env.playwright with
        | false => simp [hp]
        | true =>
          simp only [Bool.true_eq_false, if_false]
          by_cases hA : env.is_file inp = true
          · by_cases hB : lowerChars (pySuffix inp.base) = htmlExt
            · rw [if_pos ⟨hA, hB⟩]
              rcases hs : singleReturn
                  (convert_html_to_pdf_async env inp args.output)
                  with _ | p
              · simp [hs, hA, hB, hp]
              · simp [hs, hA, hB, hp]
            · rw [if_neg (by simp [hB])]
              by_cases hd : env.is_dir inp = true
              · rw [if_pos hd]
                simp [hB, hd, hp]
              · rw [if_neg hd]
                simp [hB, hd, hp]
          · rw [if_neg (by simp [hA])]
            by_cases hd : env.is_dir inp = true
            · rw [if_pos hd]
              simp [hA, hd, hp]
            · rw [if_neg hd]
              simp [hA, hd, hp]
  · intro env args
    unfold generate_pdfs_main wrap_exit_zero
    by_cases hc : args.check = true ∨ args.input = none
    · rw [if_pos hc]
      cases hp : env.playwright with
      | false => simp [hp, hc]
      | true =>
        rcases hi : args.input with _ | inp
        · simp [hp]
        · simp [hp, hi, generate_pdfs_body_iff]
    · rw [if_neg hc]
      rcases hi : args.input with _ | inp
      · exact absurd (Or.inr hi) hc
      · have hcheck : ¬args.check = true := fun h => hc (Or.inl h)
        simp [generate_pdfs_body_iff, hcheck, hi]

/-- C3 amended witness: a concrete `generate_pdfs.py` directory
invocation over `dirMaps` with a raise-free collaborator exits 0, and
the characterization certifies it. -/
theorem exit_code_characterization_witness :
    wrap_exit_zero envTwoFiles ⟨some dirMaps, none, false⟩ :=
  (exit_code_characterization.2 envTwoFiles
    ⟨some dirMaps, none, false⟩).mp (by decide)

end PdfGen
